import Mathlib

/-!
Verification development for the media-acquisition engine of the bot
(`src/utils/download.py`).  The Python source is shallowly embedded:

* pure helpers become Lean functions with the same names (a leading
  underscore from Python is dropped where Lean prefers it, otherwise kept);
* the filesystem is an explicit map from paths to file data;
* network responses, regex-extraction results and the ffmpeg black box are
  oracle inputs: records describing what the outside world answered;
* Python exceptions become an explicit `PyExc` sum carried in `Except` /
  `Option` results.

Machine integers do not occur (sizes are unbounded Python ints, modelled
as `Nat`).
-/

/-- Python exceptions that appear in `src/utils/download.py`.
`downloadError` is the engine's own tagged error class `DownloadError`;
the others are raw library / runtime exceptions. -/
inductive PyExc where
  | downloadError (msg : String)
  | requestException
  | ytdlpError (msg : String)
  | valueError
  | indexError
  | fileNotFoundError
  | ffmpegError
deriving DecidableEq, Repr

instance {ε α : Type} [DecidableEq ε] [DecidableEq α] :
    DecidableEq (Except ε α) := fun x y =>
  match x, y with
  | .ok a, .ok b => if h : a = b then .isTrue (by rw [h]) else .isFalse (by simp [h])
  | .error a, .error b =>
    if h : a = b then .isTrue (by rw [h]) else .isFalse (by simp [h])
  | .ok _, .error _ => .isFalse (by simp)
  | .error _, .ok _ => .isFalse (by simp)

/-- Raw file bytes. -/
abbrev Bytes := List Nat

/-- The parameters of one ffmpeg audio output-argument set
(`acodec`, `b:a`, `ac`, `ar` in `_transcode_to_mp4`). -/
structure AudioArgs where
  acodec : String
  bitrate : String
  ac : Nat
  ar : Nat
deriving DecidableEq, Repr

/-- The ffmpeg output-argument dictionary built by `_transcode_to_mp4`
(download.py lines 723-737).  `audio = none` models the `an` (no audio)
flag. -/
structure OutputArgs where
  vcodec : String
  movflags : String
  preset : String
  crf : Nat
  pix_fmt : String
  profileV : String
  level : String
  g : Nat
  vsync : String
  audio : Option AudioArgs
deriving DecidableEq, Repr

/-- A file on disk: its bytes, and — when the file was produced by the
transcoder — the ffmpeg arguments it was encoded with (`enc = none` means
the file is exactly as downloaded). -/
structure FileData where
  bytes : Bytes
  enc : Option OutputArgs
deriving DecidableEq, Repr

/-- A path inside the scratch directory `downloads/`: stem plus suffix
(the suffix includes the leading dot, like `pathlib.Path.suffix`). -/
structure FPath where
  stem : String
  ext : String
deriving DecidableEq, Repr

/-- The filesystem: which file data, if any, lives at each path. -/
def FS := FPath → Option FileData

/-- Write (or delete, with `none`) one path of the filesystem. -/
def FS.set (fs : FS) (p : FPath) (d : Option FileData) : FS :=
  fun q => if q = p then d else fs q

/-- `lPre n h` : the char list `n` is an initial segment of `h`
(Python `str.startswith`, spelled out on characters). -/
def lPre : List Char → List Char → Bool
  | [], _ => true
  | _ :: _, [] => false
  | a :: as, b :: bs => a == b && lPre as bs

/-- `lSub n h` : the char list `n` occurs contiguously inside `h`
(Python's substring test `n in h`). -/
def lSub (n : List Char) : List Char → Bool
  | [] => lPre n []
  | b :: bs => lPre n (b :: bs) || lSub n bs

/-- Python's `needle in hay` on strings. -/
def strIn (needle hay : String) : Bool :=
  lSub needle.toList hay.toList

/-- Python `str.lower()` (ASCII case folding — hosts and codec names are
ASCII). -/
def strLower (s : String) : String :=
  String.mk (s.toList.map Char.toLower)

/-- The domain tuples at the top of download.py (lines 23-40). -/
def INSTAGRAM_DOMAINS : List String := ["instagram.com", "instagr.am"]

def TIKTOK_DOMAINS : List String :=
  ["tiktok.com", "tiktokcdn.com", "vm.tiktok.com", "vt.tiktok.com"]

def SNAPCHAT_DOMAINS : List String := ["snapchat.com", "story.snapchat.com"]

def LIKEE_DOMAINS : List String := ["likee.video", "l.likee.video", "like.video"]

def YOUTUBE_DOMAINS : List String :=
  ["youtube.com", "youtu.be", "m.youtube.com", "music.youtube.com",
   "youtube-nocookie.com"]

/-- A URL, pre-parsed the way `urllib.parse.urlparse` splits it: the
network location (host), the path already split at `/`, and the parsed
`img_index` query parameter (outer `none` = parameter absent; inner
`none` = present but `int()` failed on it, cf. lines 525-531). -/
structure Url where
  netloc : String
  pathSegs : List String
  imgIndex : Option (Option Int)
deriving DecidableEq, Repr

/-- `_is_instagram_url` (download.py lines 81-83). -/
def is_instagram_url (u : Url) : Bool :=
  INSTAGRAM_DOMAINS.any (fun d => strIn d (strLower u.netloc))

/-- `_is_tiktok_url` (lines 86-88). -/
def is_tiktok_url (u : Url) : Bool :=
  TIKTOK_DOMAINS.any (fun d => strIn d (strLower u.netloc))

/-- `_is_snapchat_url` (lines 91-93). -/
def is_snapchat_url (u : Url) : Bool :=
  SNAPCHAT_DOMAINS.any (fun d => strIn d (strLower u.netloc))

/-- `_is_likee_url` (lines 96-98). -/
def is_likee_url (u : Url) : Bool :=
  LIKEE_DOMAINS.any (fun d => strIn d (strLower u.netloc))

/-- `_is_youtube_url` (lines 101-103). -/
def is_youtube_url (u : Url) : Bool :=
  YOUTUBE_DOMAINS.any (fun d => strIn d (strLower u.netloc))

/-- Provider identities, in the order `download_video` tests them. -/
inductive Provider where
  | instagram | tiktok | snapchat | likee | youtube | generic
deriving DecidableEq, Repr

/-- The URL classification implicit in `download_video`'s if-chain
(lines 110-129): the first matching predicate wins, unmatched URLs are
generic. -/
def classifyUrl (u : Url) : Provider :=
  if is_instagram_url u then .instagram
  else if is_tiktok_url u then .tiktok
  else if is_snapchat_url u then .snapchat
  else if is_likee_url u then .likee
  else if is_youtube_url u then .youtube
  else .generic

/-- Python `str.startswith` (over the characters, so proofs can compute). -/
def strStarts (p s : String) : Bool :=
  lPre p.toList s.toList

/-- Python `str.strip()` without arguments: drop surrounding whitespace. -/
def strStrip (s : String) : String :=
  String.mk
    (((s.toList.dropWhile Char.isWhitespace).reverse.dropWhile
        Char.isWhitespace).reverse)

/-- Python `s.split(c)[0]`: the prefix of `s` before the first `c`. -/
def strBefore (c : Char) (s : String) : String :=
  String.mk (s.toList.takeWhile (fun ch => ch != c))

/-- Python `s.rstrip(c)`: drop trailing copies of the character `c`. -/
def strRstrip (c : Char) (s : String) : String :=
  String.mk ((s.toList.reverse.dropWhile (fun ch => ch == c)).reverse)

/-- One streamed HTTP transfer, as `_download_file_from_url` observes it:
whether `requests.get` + `raise_for_status` succeeded, the chunks that
`iter_content` delivered, and whether a `RequestException` was raised
mid-stream after those chunks. -/
structure NetStream where
  connectOk : Bool
  chunks : List Bytes
  midFail : Bool
deriving DecidableEq, Repr

def dlFailMsg : String := "Mediat faylini yuklab olishda xato yuz berdi."

/-- `_download_file_from_url` (download.py lines 641-667).  Opening the
destination with mode `wb` creates/truncates it; every delivered chunk is
appended; on a `RequestException` the partial destination is removed (if
present) and the engine's `DownloadError` is raised.  Returns the new
filesystem plus the raised exception, if any. -/
def download_file_from_url (fs : FS) (destination : FPath) (s : NetStream) :
    FS × Option PyExc :=
  if s.connectOk then
    let fs1 := fs.set destination (some ⟨s.chunks.flatten, none⟩)
    if s.midFail then
      let fs2 := if (fs1 destination).isSome then fs1.set destination none else fs1
      (fs2, some (.downloadError dlFailMsg))
    else (fs1, none)
  else
    let fs2 := if (fs destination).isSome then fs.set destination none else fs
    (fs2, some (.downloadError dlFailMsg))

/-- The OS-level `Path.unlink`: `fault` is an oracle for an OS failure
other than a missing file (permissions, etc.); without a fault, unlinking
deletes an existing path and raises `FileNotFoundError` on a missing one. -/
def osUnlink (fs : FS) (p : FPath) (fault : Option PyExc) : Except PyExc FS :=
  match fault with
  | some e => .error e
  | none =>
    if (fs p).isSome then .ok (fs.set p none) else .error .fileNotFoundError

/-- `cleanup_file` (lines 670-677): `FileNotFoundError` is passed over,
any other exception is logged and swallowed; the call itself never
raises. -/
def cleanup_file (fs : FS) (p : FPath) (fault : Option PyExc) : Except PyExc FS :=
  match osUnlink fs p fault with
  | .ok fs1 => .ok fs1
  | .error .fileNotFoundError => .ok fs
  | .error _ => .ok fs

/-- The extraction retry loop of `_download_with_ytdlp._worker`
(lines 194-210).  `f n` is the outcome of `ydl.extract_info` on attempt
`n`; only the library's `yt_dlp.utils.DownloadError` (constructor
`ytdlpError`) is caught and retried, any other exception propagates at
once; before retrying the worker sleeps `min(2 ** attempt, 10)`.
Returns the loop's outcome together with the list of sleeps performed.
The Python guard `attempt >= retries` is carried as the remaining budget
`left = retries - attempt`, so the recursion is structural. -/
def retryGo {α : Type} (f : Nat → Except PyExc α) :
    Nat → Nat → Except PyExc α × List Nat
  | attempt, left =>
    match f attempt with
    | .ok a => (.ok a, [])
    | .error (.ytdlpError m) =>
      match left with
      | 0 => (.error (.ytdlpError m), [])
      | left' + 1 =>
        let r := retryGo f (attempt + 1) left'
        (r.1, min (2 ^ attempt) 10 :: r.2)
    | .error e => (.error e, [])

/-- The whole loop: attempts start at 1 and `retries = max(1,
settings.download_retries)` (line 145), so `max 1 r - 1` further attempts
remain after the first. -/
def retryLoop {α : Type} (f : Nat → Except PyExc α) (download_retries : Nat) :
    Except PyExc α × List Nat :=
  retryGo f 1 (max 1 download_retries - 1)

/-- One stream of an `ffmpeg.probe` result, with the fields
`_ensure_playable_mp4` / `_find_stream` read. -/
structure ProbeStream where
  codec_type : String
  channels : Nat
deriving DecidableEq, Repr

/-- Outcome of `ffmpeg.probe`: the stream list, or an `ffmpeg.Error`. -/
inductive ProbeOutcome where
  | ok (streams : List ProbeStream)
  | err
deriving DecidableEq, Repr

/-- `_find_stream` (lines 758-762): first stream of the requested type. -/
def find_stream (streams : List ProbeStream) (stream_type : String) :
    Option ProbeStream :=
  streams.find? (fun s => s.codec_type == stream_type)

/-- The ffmpeg transcode invocation as a black box: whether the `run`
succeeded, and the bytes it wrote to the target on success. -/
structure FfmpegRun where
  ok : Bool
  outBytes : Bytes
deriving DecidableEq, Repr

/-- The audio argument set `acodec=aac, b:a=128k, ac=2, ar=48000`
(line 735). -/
def aacStereo48k : AudioArgs := ⟨"aac", "128k", 2, 48000⟩

/-- The `output_args` dictionary of `_transcode_to_mp4` (lines 723-737):
fixed video arguments, plus either the AAC audio set or the `an` flag. -/
def transcodeArgs (has_audio : Bool) : OutputArgs :=
  ⟨"libx264", "+faststart", "veryfast", 23, "yuv420p", "baseline", "3.1", 48,
   "vfr", if has_audio then some aacStereo48k else none⟩

def transcodeFailMsg : String :=
  "Videoni telegram uchun tayyorlashda xato yuz berdi."

/-- `_transcode_to_mp4` (lines 715-755): pick a target path differing
from the source, run ffmpeg (raising the engine's `DownloadError` if the
library reports `ffmpeg.Error`), then best-effort delete the original
when the target exists and the paths differ. -/
def transcode_to_mp4 (fs : FS) (path : FPath) (has_audio : Bool)
    (run : FfmpegRun) : FS × Except PyExc FPath :=
  let target0 : FPath := ⟨path.stem, ".mp4"⟩
  let target : FPath :=
    if target0 = path then ⟨path.stem ++ "_h264", ".mp4"⟩ else target0
  if run.ok then
    let fs1 := fs.set target (some ⟨run.outBytes, some (transcodeArgs has_audio)⟩)
    let fs2 :=
      if (fs1 target).isSome ∧ path ≠ target then fs1.set path none else fs1
    (fs2, .ok target)
  else (fs, .error (.downloadError transcodeFailMsg))

/-- `_ensure_playable_mp4` (lines 701-712): a failed probe re-encodes
defensively with audio; otherwise audio is kept iff an audio stream with
a positive channel count is present. -/
def ensure_playable_mp4 (fs : FS) (path : FPath) (probe : ProbeOutcome)
    (run : FfmpegRun) : FS × Except PyExc FPath :=
  match probe with
  | .err => transcode_to_mp4 fs path true run
  | .ok streams =>
    let has_audio :=
      match find_stream streams "audio" with
      | some s => decide (0 < s.channels)
      | none => false
    transcode_to_mp4 fs path has_audio run

/-- `_is_telegram_friendly_codec` (lines 696-698). -/
def is_telegram_friendly_codec (codec : String) : Bool :=
  let lowered := strLower codec
  strStarts "avc" lowered || strStarts "h264" lowered

/-- The cleaning `(entry.get("vcodec") or "").strip()` plus the
`candidate and candidate.lower() != "none"` test used twice inside
`_detect_video_codec` (lines 681-682, 690-692). -/
def cleanVcodec (v : Option String) : Option String :=
  let c := strStrip (v.getD "")
  if c ≠ "" ∧ strLower c ≠ "none" then some c else none

/-- An entry of `requested_formats` / `requested_downloads` / `formats`
with the only field `_detect_video_codec` reads. -/
structure FormatEntry where
  vcodec : Option String
deriving DecidableEq, Repr

/-- `_detect_video_codec` (lines 680-693): the info dict's own `vcodec`
first, then the first usable `vcodec` of the three nested format lists in
order. -/
def detect_video_codec_from (own : Option String)
    (collections : List (List FormatEntry)) : Option String :=
  match cleanVcodec own with
  | some c => some c
  | none => (collections.flatten.filterMap (fun e => cleanVcodec e.vcodec)).head?

/-- The video-compliance step of `_worker` (lines 274-281): a re-encode
happens exactly when a codec was detected and it is not Telegram
friendly. -/
def workerVideoStep (fs : FS) (output : FPath) (video_codec : Option String)
    (probe : ProbeOutcome) (run : FfmpegRun) : FS × Except PyExc FPath :=
  match video_codec with
  | some codec =>
    if is_telegram_friendly_codec codec then (fs, .ok output)
    else ensure_playable_mp4 fs output probe run
  | none => (fs, .ok output)

/-- Whether `ffmpeg.probe` raised (`ffmpeg.Error`). -/
def probeFailed : ProbeOutcome → Bool
  | .err => true
  | .ok _ => false

/-- Spec-side definition, written from claim C1's words: "an audio stream
with at least one channel was detected".  A failed probe detects
nothing. -/
def audioStreamDetected (probe : ProbeOutcome) : Bool :=
  match probe with
  | .ok streams =>
    match find_stream streams "audio" with
    | some s => decide (0 < s.channels)
    | none => false
  | .err => false

/-- The fields of a yt-dlp info dict (or playlist entry) that `_worker`
reads after extraction; `preparedName` is the oracle for
`ydl.prepare_filename(info)`. -/
structure YtMedia where
  vcodec : Option String
  ext : Option String
  requested_formats : List FormatEntry
  requested_downloads : List FormatEntry
  formats : List FormatEntry
  title : Option String
  duration : Option Nat
  preparedName : FPath
deriving DecidableEq, Repr

/-- A yt-dlp extraction result: a plain info dict, or — when
`_type == "playlist"` — a playlist with entries. -/
structure YtInfo where
  isPlaylist : Bool
  entries : List YtMedia
  media : YtMedia
deriving DecidableEq, Repr

/-- `_detect_video_codec` applied to an info dict (lines 680-693). -/
def detect_video_codec (m : YtMedia) : Option String :=
  detect_video_codec_from m.vcodec
    [m.requested_formats, m.requested_downloads, m.formats]

/-- The still-image extension set of line 231. -/
def stillImageExts : List String := ["jpg", "jpeg", "png", "webp", "ico"]

/-- Playlist-entry selection (lines 221-236): the first entry with a real
video codec, else the first whose extension is not a still-image type,
else the first entry outright. -/
def selectPlaylistEntry (entries : List YtMedia) : Option YtMedia :=
  match entries.find? (fun e =>
      let vcodec := strLower (e.vcodec.getD "")
      vcodec != "" && vcodec != "none") with
  | some e => some e
  | none =>
    match entries.find? (fun e =>
        let ext := strLower (e.ext.getD "")
        ext != "" && !(stillImageExts.contains ext)) with
    | some e => some e
    | none => entries.head?

/-- Lines 215-243: for a playlist result, an empty entry list is an
error, otherwise the selected entry becomes the info dict. -/
def resolvePlaylist (info : YtInfo) : Except PyExc YtMedia :=
  if info.isPlaylist then
    match info.entries with
    | [] => .error (.downloadError "Post tarkibidagi media topilmadi.")
    | e0 :: rest => .ok ((selectPlaylistEntry (e0 :: rest)).getD e0)
  else .ok info.media

/-- The alternative-extension list of line 255. -/
def fallbackExts : List String := [".jpg", ".jpeg", ".png", ".webp", ".mkv", ".webm"]

/-- Lines 245-269: locate the downloaded file, trying `.mp4` and then the
alternative extensions when the reported name does not exist; a file that
is still missing is an error. -/
def resolveOutput (fs : FS) (output : FPath) : Except PyExc FPath :=
  let output1 :=
    if (fs output).isSome then output
    else
      let candidate : FPath := ⟨output.stem, ".mp4"⟩
      if (fs candidate).isSome then candidate
      else
        match (fallbackExts.map (fun e => (⟨output.stem, e⟩ : FPath))).find?
            (fun c => (fs c).isSome) with
        | some c => c
        | none => output
  if (fs output1).isSome then .ok output1
  else .error (.downloadError "Yuklab olingan fayl topilmadi.")

/-- `path.suffix.lstrip(".")` as used at lines 272 and 287. -/
def extNoDot (p : FPath) : String :=
  String.mk (p.ext.toList.dropWhile (fun c => c == '.'))

/-- The photo extension tuple of line 272. -/
def photoExts : List String := ["jpg", "jpeg", "png", "webp"]

/-- Line 272: media type from the located file's suffix. -/
def mediaTypeOf (output : FPath) : String :=
  if photoExts.contains (extNoDot output) then "photo" else "video"

/-- The `DownloadResult` dataclass (lines 67-73). -/
structure DownloadResult where
  file_path : FPath
  title : String
  duration : Option Nat
  ext : String
  media_type : String
deriving DecidableEq, Repr

/-- Oracle inputs for one `_download_with_ytdlp._worker` run: the outcome
of each `ydl.extract_info` attempt, the files yt-dlp wrote to disk, and
the ffmpeg probe / run outcomes consumed if a transcode is needed. -/
structure YtEnv where
  attempts : Nat → Except PyExc YtInfo
  dlWrites : List (FPath × FileData)
  probe : ProbeOutcome
  run : FfmpegRun

/-- Apply a list of writes to the filesystem, in order. -/
def FS.writeAll (fs : FS) (ws : List (FPath × FileData)) : FS :=
  ws.foldl (fun f w => f.set w.1 (some w.2)) fs

/-- `_download_with_ytdlp._worker` (lines 144-289) for a URL whose option
set is already built: run the retry loop, select the playlist entry if
needed, locate the downloaded file, and for videos repair the codec.
`env.dlWrites` is what yt-dlp's download side put on disk. -/
def ytdlpWorker (fs : FS) (env : YtEnv) (download_retries : Nat) :
    FS × Except PyExc DownloadResult :=
  let fs1 := fs.writeAll env.dlWrites
  match (retryLoop env.attempts download_retries).1 with
  | .error e => (fs1, .error e)
  | .ok info =>
    match resolvePlaylist info with
    | .error e => (fs1, .error e)
    | .ok media =>
      match resolveOutput fs1 media.preparedName with
      | .error e => (fs1, .error e)
      | .ok output =>
        let media_type := mediaTypeOf output
        if media_type = "video" then
          match workerVideoStep fs1 output (detect_video_codec media)
              env.probe env.run with
          | (fs2, .error e) => (fs2, .error e)
          | (fs2, .ok output2) =>
            (fs2, .ok ⟨output2, media.title.getD "Instagram media",
                       media.duration, extNoDot output2, media_type⟩)
        else
          (fs1, .ok ⟨output, media.title.getD "Instagram media",
                     media.duration, extNoDot output, media_type⟩)

def genericFailMsg : String :=
  "Video yuklab olib bo\x27lmadi. Havolani tekshiring."

def tiktokSlowMsg : String :=
  "TikTok serveri juda sekin javob bermoqda. Birozdan so\x27ng qayta urinib ko\x27ring."

def unexpectedMsg : String :=
  "Kutilmagan xato yuz berdi. Keyinroq urinib ko\x27ring."

/-- The exception boundary of `_download_with_ytdlp` (lines 291-313):
`yt_dlp.utils.DownloadError` becomes the engine's `DownloadError` with a
message chosen on the error text; every other exception — the engine's
own `DownloadError` raised inside the worker included — becomes the
generic unexpected-error `DownloadError`. -/
def ytdlpBoundary (r : Except PyExc DownloadResult) :
    Except PyExc DownloadResult :=
  match r with
  | .ok a => .ok a
  | .error (.ytdlpError m) =>
    .error (.downloadError
      (if strIn "handshake operation timed out" (strLower m) then tiktokSlowMsg
       else genericFailMsg))
  | .error _ => .error (.downloadError unexpectedMsg)

/-- `_download_with_ytdlp` (lines 143-313).  Every call site passes
`ensure_playable=False` (lines 115, 121, 124, 127, 129), so the
post-processing block of lines 293-302 never runs and is not modelled. -/
def download_with_ytdlp (fs : FS) (env : YtEnv) (download_retries : Nat) :
    FS × Except PyExc DownloadResult :=
  let r := ytdlpWorker fs env download_retries
  (r.1, ytdlpBoundary r.2)

/-- Python truthiness of an optional string (`None` and `""` are falsy). -/
def truthyStr : Option String → Bool
  | none => false
  | some s => !(s == "")

/-- Python truthiness of an optional number (`None` and `0` are falsy). -/
def truthyNat : Option Nat → Bool
  | none => false
  | some n => n != 0

/-- `s.lstrip(".")`. -/
def strLstripDot (s : String) : String :=
  String.mk (s.toList.dropWhile (fun c => c == '.'))

/-- Drop the characters up to and including the first occurrence of
`pat`. -/
def dropThroughPat (pat : List Char) : List Char → List Char
  | [] => []
  | c :: t =>
    if lPre pat (c :: t) then (c :: t).drop pat.length else dropThroughPat pat t

/-- `urlparse(u).path` for the http(s) URLs the engine handles: strip
`scheme://netloc` when a scheme is present, cut at the query / fragment
separators. -/
def urlPathOf (u : String) : String :=
  let cs := u.toList
  let rest :=
    if lSub "://".toList cs then
      (dropThroughPat "://".toList cs).dropWhile (fun c => c != '/')
    else cs
  String.mk (rest.takeWhile (fun c => c != '?' && c != '#'))

/-- `pathlib.Path(p).suffix`: the extension of the last path component
(empty when there is no interior dot). -/
def pathSuffix (p : String) : String :=
  let name := (p.toList.reverse.takeWhile (fun c => c != '/')).reverse
  let n := name.length
  let k := (name.reverse.takeWhile (fun c => c != '.')).length
  if k = n then ""
  else
    let i := n - 1 - k
    if 0 < i ∧ i < n - 1 then String.mk (name.drop i) else ""

/-- An Instagram media node, with the fields `_download_instagram_media`
reads.  `display_resources = none` models a missing key (Python defaults
it to `[{}]`); each entry is its `src` value. -/
structure IGNode where
  is_video : Bool
  video_url : Option String
  video_duration : Option Nat
  display_url : Option String
  display_resources : Option (List (Option String))
  thumbnail_src : Option String
deriving DecidableEq, Repr

/-- An Instagram media dict.  `selfNode` holds its node-level fields (the
dict doubles as the single node for non-carousel posts);
`sidecarEdges = some es` models a truthy `edge_sidecar_to_children`
whose edges carry the listed nodes (`none` = an edge with an empty or
missing node dict). -/
structure IGMedia where
  sidecarEdges : Option (List (Option IGNode))
  selfNode : IGNode
  captionEdges : List (Option String)
  accessibility_caption : Option String
deriving DecidableEq, Repr

/-- `_extract_instagram_caption` (lines 630-638): first nonempty stripped
caption-edge text, else the stripped accessibility caption. -/
def extract_instagram_caption (m : IGMedia) : String :=
  match (m.captionEdges.filterMap (fun t =>
      let s := strStrip (t.getD "")
      if s == "" then none else some s)).head? with
  | some s => s
  | none => strStrip (m.accessibility_caption.getD "")

/-- Lines 439-447: the ordered node list of a post (sidecar children, or
the media dict itself). -/
def buildNodes (media : IGMedia) : List IGNode :=
  match media.sidecarEdges with
  | some edges => edges.filterMap id
  | none => [media.selfNode]

/-- The index selection of lines 452-461: a 1-based requested index is
honored iff `1 <= i <= len(nodes)`, anything else keeps index 0. -/
def igSelectIndex (requested_index : Option Int) (n : Nat) : Nat :=
  match requested_index with
  | some ri => if 1 ≤ ri ∧ ri ≤ (n : Int) then (ri - 1).toNat else 0
  | none => 0

/-- `node = nodes[index]` (line 463) under the selection above (`none`
iff the node list is empty, which lines 449-450 rule out first). -/
def selectedNode (nodes : List IGNode) (requested_index : Option Int) :
    Option IGNode :=
  match nodes with
  | [] => none
  | n0 :: _ => some (nodes.getD (igSelectIndex requested_index nodes.length) n0)

/-- `node.get("display_resources", [{}])[-1].get("src")` (line 489): a
missing key defaults to `[{}]`, whose last element has no `src`; an
explicitly empty list raises a raw `IndexError`. -/
def lastResourceSrc (res : Option (List (Option String))) :
    Except PyExc (Option String) :=
  match res with
  | none => .ok none
  | some [] => .error .indexError
  | some (r0 :: rest) => .ok ((r0 :: rest).getLast (by simp))

/-- The short-circuiting `or`-chain of lines 487-491:
`display_url or display_resources[-1].src or thumbnail_src`. -/
def igImageUrl (node : IGNode) : Except PyExc (Option String) :=
  if truthyStr node.display_url then .ok node.display_url
  else
    match lastResourceSrc node.display_resources with
    | .error e => .error e
    | .ok r => .ok (if truthyStr r then r else node.thumbnail_src)

/-- `Path(urlparse(url).path).suffix.lstrip(".") or dflt` (lines 470 and
495). -/
def extFromUrl (url dflt : String) : String :=
  let e := strLstripDot (pathSuffix (urlPathOf url))
  if e == "" then dflt else e

/-- `_download_instagram_media`, lines 431-511: from the chosen media
dict to the returned `DownloadResult`; the byte transfer goes through
`download_file_from_url` on the oracle `stream`.  (`float()` conversion
of the JSON duration is elided: durations are already numbers here.) -/
def igResolve (fs : FS) (shortcode : String) (requested_index : Option Int)
    (mediaQ : Option IGMedia) (stream : NetStream) :
    FS × Except PyExc DownloadResult :=
  match mediaQ with
  | none => (fs, .error (.downloadError "Post ma\x27lumotlari topilmadi."))
  | some media =>
    match buildNodes media with
    | [] => (fs, .error (.downloadError "Post tarkibida media topilmadi."))
    | n0 :: ntail =>
      let nodes := n0 :: ntail
      let index := igSelectIndex requested_index nodes.length
      let node := nodes.getD index n0
      let caption := extract_instagram_caption media
      let title := if caption == "" then "Instagram " ++ shortcode else caption
      let suffix := if 1 < nodes.length then "_" ++ toString (index + 1) else ""
      if node.is_video && truthyStr node.video_url then
        let video_url := node.video_url.getD ""
        let duration_raw :=
          if truthyNat node.video_duration then node.video_duration
          else media.selfNode.video_duration
        let duration := if truthyNat duration_raw then duration_raw else none
        let ext := extFromUrl video_url "mp4"
        let file_path : FPath := ⟨shortcode ++ suffix, "." ++ ext⟩
        match download_file_from_url fs file_path stream with
        | (fs1, some e) => (fs1, .error e)
        | (fs1, none) => (fs1, .ok ⟨file_path, title, duration, ext, "video"⟩)
      else
        match igImageUrl node with
        | .error e => (fs, .error e)
        | .ok image_url =>
          if !truthyStr image_url then
            (fs, .error (.downloadError "Postda rasm topilmadi."))
          else
            let ext := extFromUrl (image_url.getD "") "jpg"
            let file_path : FPath := ⟨shortcode ++ suffix, "." ++ ext⟩
            match download_file_from_url fs file_path stream with
            | (fs1, some e) => (fs1, .error e)
            | (fs1, none) => (fs1, .ok ⟨file_path, title, none, ext, "photo"⟩)

/-- The graphql container: only `shortcode_media` is consumed, and the
truthiness of `reel` is tested by the HTML fallback (line 606). -/
structure IGGraphql where
  shortcode_media : Option IGMedia
  reel : Option IGMedia
deriving DecidableEq, Repr

/-- A fetched Instagram payload dict: its `graphql` member and its
`items` list (either may be absent/empty). -/
structure IGPayload where
  graphql : Option IGGraphql
  items : List IGMedia
deriving DecidableEq, Repr

/-- Lines 431-436: `graphql.shortcode_media`, else the first item. -/
def mediaOfPayload (p : IGPayload) : Option IGMedia :=
  match p.graphql.bind (fun g => g.shortcode_media) with
  | some m => some m
  | none => p.items.head?

/-- Oracle description of the Instagram HTTP fetches
(`_fetch_instagram_payload`, lines 536-566, and its HTML fallback, lines
569-627): request outcomes and embedded-JSON parse results.
`legacyData` stands for the first legacy `entry_data` script whose
graphql parses, if any. -/
structure IgHttp where
  jsonReqOk : Bool
  jsonRespOk : Bool
  jsonParse : Option IGPayload
  htmlReqOk : Bool
  htmlStatus : Nat
  nextData : Option IGGraphql
  legacyData : Option IGGraphql

def igHtmlFailMsg : String :=
  "Instagram ma\x27lumotlarini olishda xato yuz berdi."

/-- `_fetch_instagram_payload_from_html` (lines 569-627). -/
def fetch_instagram_payload_from_html (h : IgHttp) : Except PyExc IGPayload :=
  if !h.htmlReqOk then .error (.downloadError igHtmlFailMsg)
  else if h.htmlStatus == 404 then
    .error (.downloadError "Instagram havolasi topilmadi yoki o\x27chirilgan.")
  else if !(h.htmlStatus < 400) then .error (.downloadError igHtmlFailMsg)
  else
    let nextQ : Option IGPayload :=
      match h.nextData with
      | some g =>
        if g.shortcode_media.isSome || g.reel.isSome then some ⟨some g, []⟩
        else none
      | none => none
    match nextQ with
    | some p => .ok p
    | none =>
      match h.legacyData with
      | some g =>
        if g.shortcode_media.isSome then .ok ⟨some g, []⟩
        else .error (.downloadError igHtmlFailMsg)
      | none => .error (.downloadError igHtmlFailMsg)

/-- `_fetch_instagram_payload` (lines 536-566): the JSON endpoint when it
answers with a usable shape, else the HTML fallback. -/
def fetch_instagram_payload (h : IgHttp) : Except PyExc IGPayload :=
  if !h.jsonReqOk then
    .error (.downloadError "Instagram bilan bog\x27lanib bo\x27lmadi.")
  else
    let fromJson : Option IGPayload :=
      if h.jsonRespOk then
        match h.jsonParse with
        | some d => if d.graphql.isSome || !(d.items == []) then some d else none
        | none => none
      else none
    match fromJson with
    | some d => .ok d
    | none => fetch_instagram_payload_from_html h

/-- `_extract_instagram_shortcode` (lines 512-533); the URL's path comes
pre-split at `/`, the comprehension drops empty segments. -/
def extract_instagram_shortcode (u : Url) :
    Option String × String × Option Int :=
  match u.pathSegs.filter (fun s => !(s == "")) with
  | [] => (none, "p", none)
  | p0 :: rest =>
    let mt0 := strLower p0
    let shortcode := strBefore '?' (match rest with | [] => p0 | r0 :: _ => r0)
    let media_type := if ["p", "reel", "tv"].contains mt0 then mt0 else "p"
    let index : Option Int :=
      match u.imgIndex with
      | some (some i) => some i
      | _ => none
    (if shortcode == "" then none else some shortcode, media_type, index)

/-- Oracle inputs for one `_download_instagram_media` run. -/
structure IgEnv where
  http : IgHttp
  stream : NetStream

/-- `_download_instagram_media` (lines 424-511), end to end. -/
def download_instagram_media (fs : FS) (u : Url) (env : IgEnv) :
    FS × Except PyExc DownloadResult :=
  match extract_instagram_shortcode u with
  | (none, _, _) =>
    (fs, .error (.downloadError "Instagram havolasini tushunib bo\x27lmadi."))
  | (some shortcode, _, requested) =>
    match fetch_instagram_payload env.http with
    | .error e => (fs, .error e)
    | .ok payload =>
      igResolve fs shortcode requested (mediaOfPayload payload) env.stream

/-- `_normalize_remote_url` (lines 132-140). -/
def normalize_remote_url (raw_url base : String) : String :=
  let cleaned := strStrip raw_url
  if cleaned == "" then cleaned
  else if strStarts "//" cleaned then "https:" ++ cleaned
  else if strStarts "/" cleaned then strRstrip '/' base ++ cleaned
  else cleaned

def tiktokFailMsg : String := "TikTok videosini olishda xato yuz berdi."

/-- Oracle description of one `_download_tiktok_via_ssstik` run (lines
326-421): the two HTTP calls, the parsed response payload, and the regex
extraction results over the returned HTML block.  `status` is the
already-lowered `status` member (`none` when falsy, absent, or the
response was not JSON); `htmlBlock` is the `data` / `result` member (or
the raw text); `linkMatch` / `anyUrlMatch` / `titleText` are the regex
capture groups; `fileId` is the `uuid4().hex` value. -/
structure SsstikEnv where
  landingOk : Bool
  postOk : Bool
  status : Option String
  htmlBlock : Option String
  linkMatch : Option String
  anyUrlMatch : Option String
  titleText : Option String
  fileId : String
  stream : NetStream

/-- Lines 386-421 of `_download_tiktok_via_ssstik`, from the extracted
link `v0` on: link presence check, URL normalization, title fallback, the
byte transfer, and the minimum size check (`html.unescape` is a pure
entity decode, elided). -/
def ssstikTransfer (fs : FS) (env : SsstikEnv) (v0 : Option String) :
    FS × Except PyExc DownloadResult :=
  if !truthyStr v0 then
    (fs, .error (.downloadError "SSStik javobidan video havolasi topilmadi."))
  else
    let video_url := normalize_remote_url (v0.getD "") "https://ssstik.io"
    let raw_title := strStrip (env.titleText.getD "")
    let title :=
      if env.titleText.isSome && !(raw_title == "") then raw_title
      else "TikTok video"
    let file_path : FPath := ⟨env.fileId, ".mp4"⟩
    match video_url, download_file_from_url fs file_path env.stream with
    | _, (fs1, some e) => (fs1, .error e)
    | _, (fs1, none) =>
      match fs1 file_path with
      | none => (fs1, .error (.downloadError "TikTok video fayli topilmadi."))
      | some fd =>
        if fd.bytes.length < 120 * 1024 then
          (fs1, .error (.downloadError "SSStik bo\x27sh video qaytardi."))
        else (fs1, .ok ⟨file_path, title, none, "mp4", "video"⟩)

/-- Lines 371-421 of `_download_tiktok_via_ssstik`: html-block presence,
then the `without_watermark` link with the generic URL-pattern fallback
(lines 374-385), then the transfer. -/
def ssstikFetch (fs : FS) (env : SsstikEnv) : FS × Except PyExc DownloadResult :=
  if !truthyStr env.htmlBlock then (fs, .error (.downloadError tiktokFailMsg))
  else
    ssstikTransfer fs env
      (if truthyStr env.linkMatch then env.linkMatch else env.anyUrlMatch)

/-- `_download_tiktok_via_ssstik` (lines 326-421): the landing fetch, the
resolver POST and the payload status check in front of `ssstikFetch`. -/
def download_tiktok_via_ssstik (fs : FS) (env : SsstikEnv) :
    FS × Except PyExc DownloadResult :=
  if !env.landingOk then (fs, .error (.downloadError tiktokFailMsg))
  else if !env.postOk then (fs, .error (.downloadError tiktokFailMsg))
  else
    let statusBad :=
      match env.status with
      | some st => !(["ok", "success"].contains st)
      | none => false
    if statusBad then (fs, .error (.downloadError tiktokFailMsg))
    else ssstikFetch fs env

/-- `_download_tiktok_media` (lines 316-323): runs the resolver and
re-raises its `DownloadError` unchanged; any other exception also
propagates unchanged, so this is the identity on the outcome. -/
def download_tiktok_media (fs : FS) (env : SsstikEnv) :
    FS × Except PyExc DownloadResult :=
  download_tiktok_via_ssstik fs env

/-- The concrete strategies `download_video` can invoke, recorded for
fallback-trace reasoning (`genericStrat` is the yt-dlp path). -/
inductive Strat where
  | instagramStrat | tiktokStrat | genericStrat
deriving DecidableEq, Repr

/-- All oracle inputs of one `download_video` call. -/
structure Env where
  ig : IgEnv
  tiktok : SsstikEnv
  yt : YtEnv
  download_retries : Nat

/-- `download_video` (lines 106-129): dispatch on the host predicates in
order; the Instagram strategy falls back to yt-dlp when — and only when —
it raised the engine's `DownloadError`; every other provider runs its
single strategy.  Returns the filesystem, the outcome, and the list of
strategies run. -/
def download_video (fs : FS) (u : Url) (env : Env) :
    FS × Except PyExc DownloadResult × List Strat :=
  if is_instagram_url u then
    match download_instagram_media fs u env.ig with
    | (fs1, .error (.downloadError _)) =>
      let r := download_with_ytdlp fs1 env.yt env.download_retries
      (r.1, r.2, [.instagramStrat, .genericStrat])
    | (fs1, .error e) => (fs1, .error e, [.instagramStrat])
    | (fs1, .ok r) => (fs1, .ok r, [.instagramStrat])
  else if is_tiktok_url u then
    let r := download_tiktok_media fs env.tiktok
    (r.1, r.2, [.tiktokStrat])
  else if is_snapchat_url u then
    let r := download_with_ytdlp fs env.yt env.download_retries
    (r.1, r.2, [.genericStrat])
  else if is_likee_url u then
    let r := download_with_ytdlp fs env.yt env.download_retries
    (r.1, r.2, [.genericStrat])
  else if is_youtube_url u then
    let r := download_with_ytdlp fs env.yt env.download_retries
    (r.1, r.2, [.genericStrat])
  else
    let r := download_with_ytdlp fs env.yt env.download_retries
    (r.1, r.2, [.genericStrat])

/-- The empty scratch directory. -/
def fsEmpty : FS := fun _ => none

def nodeA : IGNode := ⟨false, none, none, some "https://cdn.example/a.jpg", none, none⟩

def nodeB : IGNode := ⟨false, none, none, some "https://cdn.example/b.jpg", none, none⟩

def nodeC : IGNode := ⟨false, none, none, some "https://cdn.example/c.jpg", none, none⟩

def c9Env : SsstikEnv :=
  ⟨true, true, some "ok", some "<a href=...>", some "https://cdn.example/t.mp4",
   none, none, "abcdef", ⟨true, [], false⟩⟩

def retryDemo : Nat → Except PyExc Nat := fun n =>
  if n < 3 then .error (.ytdlpError "temporary failure") else .ok 7

def emptyStream : NetStream := ⟨true, [], false⟩

def dummyTiktokEnv : SsstikEnv :=
  ⟨false, false, none, none, none, none, none, "tt", ⟨false, [], false⟩⟩

def dummyYtEnv : YtEnv :=
  ⟨fun _ => .error (.ytdlpError "unavailable"), [], .err, ⟨false, []⟩⟩

def igVideoNode : IGNode :=
  ⟨true, some "https://cdn.example/v.mp4", some 5, none, none, none⟩

def igVideoMedia : IGMedia := ⟨none, igVideoNode, [], none⟩

def igVideoHttp : IgHttp :=
  ⟨true, true, some ⟨some ⟨some igVideoMedia, none⟩, []⟩, true, 200, none, none⟩

def c2Url : Url := ⟨"www.instagram.com", ["p", "SHORT"], none⟩

def c2Env : Env := ⟨⟨igVideoHttp, emptyStream⟩, dummyTiktokEnv, dummyYtEnv, 1⟩

def c2Result : DownloadResult :=
  ⟨⟨"SHORT", ".mp4"⟩, "Instagram SHORT", some 5, "mp4", "video"⟩

def igBadNode : IGNode := ⟨false, none, none, none, some [], none⟩

def igBadMedia : IGMedia := ⟨none, igBadNode, [], none⟩

def igBadHttp : IgHttp :=
  ⟨true, true, some ⟨some ⟨some igBadMedia, none⟩, []⟩, true, 200, none, none⟩

def c5Url : Url := ⟨"instagram.com", ["p", "BADPOST"], none⟩

def c5Env : Env := ⟨⟨igBadHttp, emptyStream⟩, dummyTiktokEnv, dummyYtEnv, 1⟩

def c8Url : Url := ⟨"instagr.am", ["reel", "RAWPOST"], none⟩

def c8Env : Env := ⟨⟨igBadHttp, emptyStream⟩, dummyTiktokEnv, dummyYtEnv, 2⟩

theorem FS.set_same (fs : FS) (p : FPath) (d : Option FileData) :
    FS.set fs p d p = d := by
  simp [FS.set]

theorem FS.set_other (fs : FS) (p q : FPath) (d : Option FileData) (h : q ≠ p) :
    FS.set fs p d q = fs q := by
  simp [FS.set, h]

/-- C10: Cleanup never raises: deleting a missing path is not an error,
any other deletion failure is swallowed, and a second cleanup of the same
already-deleted path does not raise either. -/
theorem cleanup_file_never_raises :
    (∀ (fs : FS) (p : FPath) (fault : Option PyExc),
      ∃ fs1, cleanup_file fs p fault = .ok fs1) ∧
    (∀ (fs : FS) (p : FPath), ∃ fs1,
      cleanup_file fs p none = .ok fs1 ∧ cleanup_file fs1 p none = .ok fs1) := by
  constructor
  · intro fs p fault
    cases fault with
    | some e => cases e <;> exact ⟨fs, rfl⟩
    | none =>
      by_cases h : (fs p).isSome
      · exact ⟨fs.set p none, by simp [cleanup_file, osUnlink, h]⟩
      · exact ⟨fs, by simp [cleanup_file, osUnlink, h]⟩
  · intro fs p
    by_cases h : (fs p).isSome
    · refine ⟨fs.set p none, ?_, ?_⟩
      · simp [cleanup_file, osUnlink, h]
      · simp [cleanup_file, osUnlink, FS.set]
    · refine ⟨fs, ?_, ?_⟩ <;> simp [cleanup_file, osUnlink, h]

/-- C4: a transfer that fails with a transport error after writing
partial chunks deletes the partial destination before surfacing the
failure: afterwards the destination does not exist, and the failure is
the engine's `DownloadError`. -/
theorem download_file_no_partial_left (fs : FS) (dest : FPath) (s : NetStream)
    (hc : s.connectOk = true) (hm : s.midFail = true) (_hch : s.chunks ≠ []) :
    (download_file_from_url fs dest s).1 dest = none ∧
    (download_file_from_url fs dest s).2 = some (.downloadError dlFailMsg) := by
  unfold download_file_from_url
  simp [hc, hm, FS.set]

theorem download_file_no_partial_left_witness :
    (download_file_from_url fsEmpty ⟨"v", ".mp4"⟩ ⟨true, [[1, 2]], true⟩).1
        ⟨"v", ".mp4"⟩ = none ∧
    (download_file_from_url fsEmpty ⟨"v", ".mp4"⟩ ⟨true, [[1, 2]], true⟩).2 =
      some (.downloadError dlFailMsg) :=
  download_file_no_partial_left fsEmpty ⟨"v", ".mp4"⟩ ⟨true, [[1, 2]], true⟩
    rfl rfl (by decide)

/-- C6 counterexample: the host `instagram.com.vt.tiktok.com` matches the
TikTok domain list — it even ends in the listed domain `vt.tiktok.com` —
yet the classifier does not return TikTok: the Instagram test runs
first. -/
theorem classifyUrl_counterexample :
    is_tiktok_url ⟨"instagram.com.vt.tiktok.com", [], none⟩ = true ∧
    classifyUrl ⟨"instagram.com.vt.tiktok.com", [], none⟩ ≠ Provider.tiktok := by
  decide

/-- C6 amended: classification lower-cases the host and substring-tests
the fixed per-provider domain lists in the order Instagram, TikTok,
Snapchat, Likee, YouTube; a URL classifies as a given provider iff its
host matches that provider's list and no earlier-tested list; a host
matching no list classifies as Generic; classification is total and
never fails. -/
theorem classifyUrl_spec (u : Url) :
    (is_instagram_url u = true → classifyUrl u = .instagram) ∧
    (is_instagram_url u = false → is_tiktok_url u = true →
      classifyUrl u = .tiktok) ∧
    (is_instagram_url u = false → is_tiktok_url u = false →
      is_snapchat_url u = true → classifyUrl u = .snapchat) ∧
    (is_instagram_url u = false → is_tiktok_url u = false →
      is_snapchat_url u = false → is_likee_url u = true →
      classifyUrl u = .likee) ∧
    (is_instagram_url u = false → is_tiktok_url u = false →
      is_snapchat_url u = false → is_likee_url u = false →
      is_youtube_url u = true → classifyUrl u = .youtube) ∧
    (is_instagram_url u = false → is_tiktok_url u = false →
      is_snapchat_url u = false → is_likee_url u = false →
      is_youtube_url u = false → classifyUrl u = .generic) := by
  refine ⟨?_, ?_, ?_, ?_, ?_, ?_⟩ <;> intros <;> simp_all [classifyUrl]

theorem classifyUrl_spec_witness :
    classifyUrl ⟨"vt.tiktok.com", [], none⟩ = Provider.tiktok :=
  (classifyUrl_spec ⟨"vt.tiktok.com", [], none⟩).2.1 (by decide) (by decide)

/-- Without a requested index, the selected index is 0. -/
theorem igSelectIndex_none (n : Nat) : igSelectIndex none n = 0 := rfl

/-- C3: an explicitly requested 1-based carousel index within
`[1, item_count]` selects exactly that item; any out-of-range request
(0, negative, or past the end) silently selects the first item, and
resolution then proceeds exactly as if no index had been requested — the
request does not fail on that account. -/
theorem igSelect_spec (n0 : IGNode) (tail : List IGNode) (i : Int) :
    (1 ≤ i → i ≤ ((n0 :: tail).length : Int) →
      selectedNode (n0 :: tail) (some i) =
        some ((n0 :: tail).getD ((i - 1).toNat) n0)) ∧
    (¬(1 ≤ i ∧ i ≤ ((n0 :: tail).length : Int)) →
      selectedNode (n0 :: tail) (some i) = some n0 ∧
      ∀ (fs : FS) (sc : String) (m : IGMedia) (s : NetStream),
        buildNodes m = n0 :: tail →
        igResolve fs sc (some i) (some m) s =
          igResolve fs sc none (some m) s) := by
  constructor
  · intro h1 h2
    have hidx : igSelectIndex (some i) (n0 :: tail).length = (i - 1).toNat := by
      unfold igSelectIndex
      exact if_pos ⟨h1, h2⟩
    unfold selectedNode
    rw [hidx]
  · intro h
    have hidx : igSelectIndex (some i) (n0 :: tail).length = 0 := by
      unfold igSelectIndex
      exact if_neg h
    refine ⟨?_, ?_⟩
    · unfold selectedNode
      rw [hidx]
      rfl
    · intro fs sc m s hb
      simp only [igResolve, hb]
      rw [hidx, igSelectIndex_none]

theorem igSelect_spec_witness :
    selectedNode [nodeA, nodeB, nodeC] (some 2) = some nodeB ∧
    selectedNode [nodeA, nodeB, nodeC] (some 0) = some nodeA ∧
    selectedNode [nodeA, nodeB, nodeC] (some 5) = some nodeA := by
  refine ⟨?_, ?_, ?_⟩
  · exact ((igSelect_spec nodeA [nodeB, nodeC] 2).1 (by decide) (by decide)).trans
      (by decide)
  · exact ((igSelect_spec nodeA [nodeB, nodeC] 0).2 (by decide)).1
  · exact ((igSelect_spec nodeA [nodeB, nodeC] 5).2 (by decide)).1

/-- A successful `_download_file_from_url` wrote exactly the delivered
chunks to the destination. -/
theorem download_file_ok (fs : FS) (dest : FPath) (s : NetStream) (fs1 : FS)
    (h : download_file_from_url fs dest s = (fs1, none)) :
    fs1 = fs.set dest (some ⟨s.chunks.flatten, none⟩) ∧
    fs1 dest = some ⟨s.chunks.flatten, none⟩ := by
  unfold download_file_from_url at h
  split at h
  · split at h
    · simp at h
    · have h1 := congrArg Prod.fst h
      simp at h1
      exact ⟨h1.symm, by rw [← h1]; exact FS.set_same fs dest _⟩
  · simp at h

/-- A failed `_download_file_from_url` raised the engine's
`DownloadError`. -/
theorem download_file_err (fs : FS) (dest : FPath) (s : NetStream) (fs1 : FS)
    (e : PyExc) (h : download_file_from_url fs dest s = (fs1, some e)) :
    e = .downloadError dlFailMsg := by
  unfold download_file_from_url at h
  split at h
  · split at h <;> simp_all
  · simp_all

/-- Every outcome of the transfer tail of `_download_tiktok_via_ssstik`
is either the engine's `DownloadError`, or a result whose file holds the
transferred bytes and passed the 120 KiB minimum-size check. -/
theorem ssstikTransfer_outcome (fs : FS) (env : SsstikEnv) (v0 : Option String) :
    (∃ m, (ssstikTransfer fs env v0).2 = .error (.downloadError m)) ∨
    (∃ r, (ssstikTransfer fs env v0).2 = .ok r ∧
      ∃ fd, (ssstikTransfer fs env v0).1 r.file_path = some fd ∧
        120 * 1024 ≤ fd.bytes.length ∧
        fd.bytes = env.stream.chunks.flatten) := by
  unfold ssstikTransfer
  dsimp only
  split
  · exact .inl ⟨_, rfl⟩
  · split
    · rename_i fs1 e hdl
      exact .inl ⟨dlFailMsg, by
        rw [download_file_err fs _ env.stream fs1 e hdl]⟩
    · rename_i fs1 hdl
      split
      · exact .inl ⟨_, rfl⟩
      · rename_i fd hfd
        split
        · exact .inl ⟨_, rfl⟩
        · rename_i hsize
          refine .inr ⟨_, rfl, fd, hfd, by omega, ?_⟩
          have h2 := (download_file_ok fs _ env.stream fs1 hdl).2
          rw [h2] at hfd
          injection hfd with h3
          rw [← h3]

/-- Every outcome of `ssstikFetch` is either the engine's
`DownloadError`, or a size-checked result. -/
theorem ssstikFetch_outcome (fs : FS) (env : SsstikEnv) :
    (∃ m, (ssstikFetch fs env).2 = .error (.downloadError m)) ∨
    (∃ r, (ssstikFetch fs env).2 = .ok r ∧
      ∃ fd, (ssstikFetch fs env).1 r.file_path = some fd ∧
        120 * 1024 ≤ fd.bytes.length ∧
        fd.bytes = env.stream.chunks.flatten) := by
  unfold ssstikFetch
  split
  · exact .inl ⟨_, rfl⟩
  · exact ssstikTransfer_outcome fs env _

/-- Every outcome of `_download_tiktok_via_ssstik` is either the engine's
`DownloadError`, or a result whose file holds the transferred bytes and
passed the 120 KiB minimum-size check. -/
theorem ssstik_outcome (fs : FS) (env : SsstikEnv) :
    (∃ m, (download_tiktok_via_ssstik fs env).2 = .error (.downloadError m)) ∨
    (∃ r, (download_tiktok_via_ssstik fs env).2 = .ok r ∧
      ∃ fd, (download_tiktok_via_ssstik fs env).1 r.file_path = some fd ∧
        120 * 1024 ≤ fd.bytes.length ∧
        fd.bytes = env.stream.chunks.flatten) := by
  unfold download_tiktok_via_ssstik
  dsimp only
  split
  · exact .inl ⟨_, rfl⟩
  · split
    · exact .inl ⟨_, rfl⟩
    · split
      · exact .inl ⟨_, rfl⟩
      · exact ssstikFetch_outcome fs env

/-- C9: in the TikTok resolver strategy, a fully transferred file smaller
than 120 KiB (120·1024 bytes) makes the call raise the engine's
`DownloadError` rather than return it as a result, and any returned
result's file passed the size check: it holds at least 120 KiB. -/
theorem ssstik_min_size (fs : FS) (env : SsstikEnv) :
    (env.stream.connectOk = true → env.stream.midFail = false →
      env.stream.chunks.flatten.length < 120 * 1024 →
      ∃ m, (download_tiktok_via_ssstik fs env).2 = .error (.downloadError m)) ∧
    (∀ fs1 r, download_tiktok_via_ssstik fs env = (fs1, .ok r) →
      ∃ fd, fs1 r.file_path = some fd ∧ 120 * 1024 ≤ fd.bytes.length) := by
  constructor
  · intro hc hm hlen
    rcases ssstik_outcome fs env with ⟨m, hm'⟩ | ⟨r, hok, fd, hfd, hge, hbytes⟩
    · exact ⟨m, hm'⟩
    · rw [hbytes] at hge
      omega
  · intro fs1 r hok
    have h1 : (download_tiktok_via_ssstik fs env).1 = fs1 := by rw [hok]
    have h2 : (download_tiktok_via_ssstik fs env).2 = .ok r := by rw [hok]
    rcases ssstik_outcome fs env with ⟨m, hm'⟩ | ⟨r', hok', fd, hfd, hge, hbytes⟩
    · rw [h2] at hm'
      exact absurd hm' (by simp)
    · rw [h2] at hok'
      injection hok' with hr
      rw [h1, ← hr] at hfd
      exact ⟨fd, hfd, hge⟩

theorem ssstik_min_size_witness :
    ∃ m, (download_tiktok_via_ssstik fsEmpty c9Env).2 =
      .error (.downloadError m) :=
  (ssstik_min_size fsEmpty c9Env).1 rfl rfl (by decide)

/-- One-step unfolding of the retry loop. -/
theorem retryGo_eq {α : Type} (f : Nat → Except PyExc α) (a left : Nat) :
    retryGo f a left =
      match f a with
      | .ok x => (.ok x, [])
      | .error (.ytdlpError m) =>
        match left with
        | 0 => (.error (.ytdlpError m), [])
        | l + 1 =>
          let r := retryGo f (a + 1) l
          (r.1, min (2 ^ a) 10 :: r.2)
      | .error e => (.error e, []) := by
  rw [retryGo]

/-- All-transient-failures run of the retry loop: it walks every
remaining attempt, sleeping the capped doubling backoff in between, and
surfaces the last error. -/
theorem retryGo_all_fail {α : Type} (f : Nat → Except PyExc α) (e : Nat → String)
    (a left : Nat)
    (hf : ∀ n, a ≤ n → n ≤ a + left → f n = .error (.ytdlpError (e n))) :
    retryGo f a left =
      (.error (.ytdlpError (e (a + left))),
       (List.range' a left).map (fun n => min (2 ^ n) 10)) := by
  induction left generalizing a with
  | zero =>
    have h0 := hf a le_rfl (by omega)
    rw [retryGo_eq, h0]
    simp [List.range']
  | succ l ih =>
    have h0 := hf a le_rfl (by omega)
    have harith : a + (l + 1) = (a + 1) + l := by omega
    have ih' := ih (a + 1) (fun n h1 h2 => hf n (by omega) (by omega))
    rw [retryGo_eq, h0]
    dsimp only
    rw [ih', harith]
    simp [List.range'_succ]

/-- Failures up to the last attempt, success at the last: the loop
returns the success, having slept the capped doubling backoff after each
failed attempt. -/
theorem retryGo_last_ok {α : Type} (f : Nat → Except PyExc α) (e : Nat → String)
    (v : α) (a left : Nat)
    (hf : ∀ n, a ≤ n → n < a + left → f n = .error (.ytdlpError (e n)))
    (hs : f (a + left) = .ok v) :
    retryGo f a left =
      (.ok v, (List.range' a left).map (fun n => min (2 ^ n) 10)) := by
  induction left generalizing a with
  | zero =>
    have hs' : f a = .ok v := hs
    rw [retryGo_eq, hs']
    simp [List.range']
  | succ l ih =>
    have h0 := hf a le_rfl (by omega)
    have harith : a + (l + 1) = (a + 1) + l := by omega
    have ih' := ih (a + 1) (fun n h1 h2 => hf n (by omega) (by omega))
      (by rw [← harith]; exact hs)
    rw [retryGo_eq, h0]
    dsimp only
    rw [ih']
    simp [List.range'_succ]

/-- The loop's outcome depends only on the attempts it may consult. -/
theorem retryGo_congr {α : Type} (f g : Nat → Except PyExc α) (a left : Nat)
    (h : ∀ n, a ≤ n → n ≤ a + left → f n = g n) :
    retryGo f a left = retryGo g a left := by
  induction left generalizing a with
  | zero =>
    have h0 := h a le_rfl (by omega)
    rw [retryGo_eq, retryGo_eq, h0]
  | succ l ih =>
    have h0 := h a le_rfl (by omega)
    have ih' := ih (a + 1) (fun n h1 h2 => h n (by omega) (by omega))
    rw [retryGo_eq, retryGo_eq, h0]
    dsimp only
    simp only [ih']

/-- The loop sleeps at most `left` times. -/
theorem retryGo_sleeps_le {α : Type} (f : Nat → Except PyExc α) (a left : Nat) :
    (retryGo f a left).2.length ≤ left := by
  induction left generalizing a with
  | zero =>
    rw [retryGo_eq]
    cases hfa : f a with
    | ok v => simp [hfa]
    | error er => cases er <;> simp [hfa]
  | succ l ih =>
    rw [retryGo_eq]
    cases hfa : f a with
    | ok v => simp [hfa]
    | error er =>
      cases er with
      | downloadError m => simp [hfa]
      | requestException => simp [hfa]
      | ytdlpError m =>
        simp [hfa]
        have hih := ih (a + 1)
        omega
      | valueError => simp [hfa]
      | indexError => simp [hfa]
      | fileNotFoundError => simp [hfa]
      | ffmpegError => simp [hfa]

/-- C7: with `retries = max(1, configured)`: the loop's outcome depends
only on attempts `1..retries`, so at most `retries` attempts run; fewer
than `retries` sleeps happen; if every attempt before the last fails with
the library's transient `DownloadError` and attempt `retries` succeeds,
the call returns that success after sleeping `min(2^n, 10)` — doubling,
capped at 10 — after each failed attempt `n`; if all `retries` attempts
fail transiently, the last attempt's error is surfaced. -/
theorem retryLoop_spec {α : Type} (f g : Nat → Except PyExc α) (r : Nat)
    (e : Nat → String) (v : α) :
    ((∀ n, 1 ≤ n → n ≤ max 1 r → f n = g n) → retryLoop f r = retryLoop g r) ∧
    ((retryLoop f r).2.length < max 1 r) ∧
    ((∀ n, 1 ≤ n → n < max 1 r → f n = .error (.ytdlpError (e n))) →
      f (max 1 r) = .ok v →
      retryLoop f r =
        (.ok v, (List.range' 1 (max 1 r - 1)).map (fun n => min (2 ^ n) 10))) ∧
    ((∀ n, 1 ≤ n → n ≤ max 1 r → f n = .error (.ytdlpError (e n))) →
      retryLoop f r =
        (.error (.ytdlpError (e (max 1 r))),
         (List.range' 1 (max 1 r - 1)).map (fun n => min (2 ^ n) 10))) := by
  have hone : 1 ≤ max 1 r := le_max_left 1 r
  have harr : 1 + (max 1 r - 1) = max 1 r := by omega
  refine ⟨?_, ?_, ?_, ?_⟩
  · intro h
    exact retryGo_congr f g 1 (max 1 r - 1) (fun n h1 h2 => h n h1 (by omega))
  · have hb := retryGo_sleeps_le f 1 (max 1 r - 1)
    unfold retryLoop
    omega
  · intro hf hs
    unfold retryLoop
    exact retryGo_last_ok f e v 1 (max 1 r - 1)
      (fun n h1 h2 => hf n h1 (by omega)) (by rw [harr]; exact hs)
  · intro hf
    unfold retryLoop
    have hall := retryGo_all_fail f e 1 (max 1 r - 1)
      (fun n h1 h2 => hf n h1 (by omega))
    rw [hall, harr]

/-- A successful ffmpeg run of `_transcode_to_mp4` targets a path that
differs from the source, writes the encoded data there, and deletes the
original. -/
theorem transcode_to_mp4_ok (fs : FS) (path : FPath) (ha : Bool)
    (run : FfmpegRun) (hr : run.ok = true) :
    ∃ target fs2, transcode_to_mp4 fs path ha run = (fs2, .ok target) ∧
      target ≠ path ∧
      fs2 target = some ⟨run.outBytes, some (transcodeArgs ha)⟩ ∧
      fs2 path = none := by
  unfold transcode_to_mp4
  dsimp only
  by_cases h0 : (⟨path.stem, ".mp4"⟩ : FPath) = path
  · have hne : (⟨path.stem ++ "_h264", ".mp4"⟩ : FPath) ≠ path := by
      rw [← h0]
      intro hEq
      have hstem : path.stem ++ "_h264" = path.stem := congrArg FPath.stem hEq
      have hlen := congrArg String.length hstem
      rw [String.length_append] at hlen
      have h5 : ("_h264" : String).length = 5 := rfl
      omega
    rw [if_pos h0]
    simp only [hr, if_true]
    rw [if_pos ⟨by rw [FS.set_same]; rfl, Ne.symm hne⟩]
    refine ⟨_, _, rfl, hne, ?_, ?_⟩
    · rw [FS.set_other _ _ _ _ hne, FS.set_same]
    · rw [FS.set_same]
  · rw [if_neg h0]
    simp only [hr, if_true]
    rw [if_pos ⟨by rw [FS.set_same]; rfl, Ne.symm h0⟩]
    refine ⟨_, _, rfl, h0, ?_, ?_⟩
    · rw [FS.set_other _ _ _ _ h0, FS.set_same]
    · rw [FS.set_same]

/-- A successful ffmpeg run of `_ensure_playable_mp4` keeps audio iff an
audio stream with a positive channel count was detected or the probe
itself failed. -/
theorem ensure_playable_ok (fs : FS) (path : FPath) (probe : ProbeOutcome)
    (run : FfmpegRun) (hr : run.ok = true) :
    ∃ target fs2, ensure_playable_mp4 fs path probe run = (fs2, .ok target) ∧
      target ≠ path ∧
      fs2 target = some ⟨run.outBytes,
        some (transcodeArgs (probeFailed probe || audioStreamDetected probe))⟩ ∧
      fs2 path = none := by
  cases probe with
  | err =>
    simpa [ensure_playable_mp4, probeFailed, audioStreamDetected] using
      transcode_to_mp4_ok fs path true run hr
  | ok streams =>
    have h := transcode_to_mp4_ok fs path
      (match find_stream streams "audio" with
       | some s => decide (0 < s.channels)
       | none => false) run hr
    simpa [ensure_playable_mp4, probeFailed, audioStreamDetected] using h

/-- C1 amended: in the worker's compliance step, a detected codec whose
lowered name begins with `avc` or `h264` — and likewise an undetected
codec — leaves the file untouched: same path, byte-identical filesystem.
Any other detected codec (with ffmpeg succeeding) re-encodes to H.264
`libx264`, constrained-`baseline` profile, level 3.1, CRF 23, `veryfast`
preset, GOP 48, `faststart`; the AAC 128 kbps stereo 48 kHz audio track
is present iff an audio stream with a positive channel count was detected
**or the probe itself failed** (the defensive assume-audio default). -/
theorem workerVideoStep_spec (fs : FS) (output : FPath) (codec : String)
    (probe : ProbeOutcome) (run : FfmpegRun) :
    (is_telegram_friendly_codec codec = true →
      workerVideoStep fs output (some codec) probe run = (fs, .ok output)) ∧
    (workerVideoStep fs output none probe run = (fs, .ok output)) ∧
    (∀ b, (transcodeArgs b).vcodec = "libx264" ∧
      (transcodeArgs b).profileV = "baseline" ∧
      (transcodeArgs b).level = "3.1" ∧ (transcodeArgs b).crf = 23 ∧
      (transcodeArgs b).preset = "veryfast" ∧ (transcodeArgs b).g = 48 ∧
      (transcodeArgs b).movflags = "+faststart" ∧
      (transcodeArgs b).audio = if b then some aacStereo48k else none) ∧
    (is_telegram_friendly_codec codec = false → run.ok = true →
      ∃ target fs2,
        workerVideoStep fs output (some codec) probe run = (fs2, .ok target) ∧
        target ≠ output ∧
        fs2 target = some ⟨run.outBytes,
          some (transcodeArgs
            (probeFailed probe || audioStreamDetected probe))⟩ ∧
        fs2 output = none) := by
  refine ⟨?_, rfl, ?_, ?_⟩
  · intro h
    simp [workerVideoStep, h]
  · intro b
    cases b <;> exact ⟨rfl, rfl, rfl, rfl, rfl, rfl, rfl, rfl⟩
  · intro h hr
    simpa [workerVideoStep, h] using ensure_playable_ok fs output probe run hr

/-- C1 counterexample: with detected codec `hev1` and a failing probe,
the re-encoded file carries the AAC stereo 48 kHz audio track although no
audio stream was detected — the claim's "audio track exactly when an
audio stream with at least one channel was detected" fails on the
probe-failure path. -/
theorem workerVideoStep_counterexample :
    (workerVideoStep fsEmpty ⟨"clip", ".webm"⟩ (some "hev1") ProbeOutcome.err
        ⟨true, [9]⟩).2 = .ok ⟨"clip", ".mp4"⟩ ∧
    (workerVideoStep fsEmpty ⟨"clip", ".webm"⟩ (some "hev1") ProbeOutcome.err
        ⟨true, [9]⟩).1 ⟨"clip", ".mp4"⟩ =
      some ⟨[9], some (transcodeArgs true)⟩ ∧
    (transcodeArgs true).audio = some aacStereo48k ∧
    audioStreamDetected ProbeOutcome.err = false := by
  decide

theorem workerVideoStep_spec_witness :
    workerVideoStep fsEmpty ⟨"clip", ".mp4"⟩ (some "avc1") ProbeOutcome.err
      ⟨true, []⟩ = (fsEmpty, .ok ⟨"clip", ".mp4"⟩) ∧
    ∃ target fs2,
      workerVideoStep fsEmpty ⟨"v", ".webm"⟩ (some "vp9")
        (ProbeOutcome.ok [⟨"audio", 2⟩]) ⟨true, [1]⟩ = (fs2, .ok target) ∧
      target ≠ ⟨"v", ".webm"⟩ ∧
      fs2 target = some ⟨[1], some (transcodeArgs
        (probeFailed (ProbeOutcome.ok [⟨"audio", 2⟩]) ||
         audioStreamDetected (ProbeOutcome.ok [⟨"audio", 2⟩])))⟩ ∧
      fs2 ⟨"v", ".webm"⟩ = none :=
  ⟨(workerVideoStep_spec fsEmpty ⟨"clip", ".mp4"⟩ "avc1" ProbeOutcome.err
      ⟨true, []⟩).1 (by decide),
   (workerVideoStep_spec fsEmpty ⟨"v", ".webm"⟩ "vp9"
      (ProbeOutcome.ok [⟨"audio", 2⟩]) ⟨true, [1]⟩).2.2.2 (by decide) rfl⟩

/-- An `igImageUrl` failure is the raw `IndexError` (empty
`display_resources`). -/
theorem igImageUrl_err (node : IGNode) (e : PyExc)
    (h : igImageUrl node = .error e) : e = .indexError := by
  unfold igImageUrl at h
  split at h
  · simp at h
  · split at h
    · rename_i e' he
      unfold lastResourceSrc at he
      split at he <;> simp_all
    · simp at h

/-- A successful `igResolve` refers to a file existing in the returned
filesystem. -/
theorem igResolve_ok_exists (fs : FS) (sc : String) (ri : Option Int)
    (mq : Option IGMedia) (s : NetStream) (fsOut : FS) (r : DownloadResult)
    (h : igResolve fs sc ri mq s = (fsOut, .ok r)) :
    (fsOut r.file_path).isSome = true := by
  unfold igResolve at h
  split at h
  · simp at h
  · split at h
    · simp at h
    · dsimp only at h
      split at h
      · split at h
        · simp at h
        · rename_i fs1 hdl
          rw [Prod.mk.injEq] at h
          obtain ⟨hfs, hok⟩ := h
          injection hok with hr
          rw [← hfs, ← hr]
          simp only [(download_file_ok fs _ s fs1 hdl).2]
          simp [FS.set]
      · split at h
        · simp at h
        · split at h
          · simp at h
          · split at h
            · simp at h
            · rename_i fs1 hdl
              rw [Prod.mk.injEq] at h
              obtain ⟨hfs, hok⟩ := h
              injection hok with hr
              rw [← hfs, ← hr]
              simp only [(download_file_ok fs _ s fs1 hdl).2]
              simp [FS.set]

/-- Every `igResolve` failure is either the engine's `DownloadError` or
the raw `IndexError` of the image-resource lookup. -/
theorem igResolve_error_kinds (fs : FS) (sc : String) (ri : Option Int)
    (mq : Option IGMedia) (s : NetStream) (fsOut : FS) (e : PyExc)
    (h : igResolve fs sc ri mq s = (fsOut, .error e)) :
    (∃ m, e = .downloadError m) ∨ e = .indexError := by
  unfold igResolve at h
  split at h
  · rw [Prod.mk.injEq] at h
    injection h.2 with he
    exact .inl ⟨_, he.symm⟩
  · split at h
    · rw [Prod.mk.injEq] at h
      injection h.2 with he
      exact .inl ⟨_, he.symm⟩
    · dsimp only at h
      split at h
      · split at h
        · rename_i fs1 e' hdl
          rw [Prod.mk.injEq] at h
          injection h.2 with he
          rw [← he, download_file_err fs _ s fs1 e' hdl]
          exact .inl ⟨_, rfl⟩
        · simp at h
      · split at h
        · rename_i e' himg
          rw [Prod.mk.injEq] at h
          injection h.2 with he
          rw [← he, igImageUrl_err _ e' himg]
          exact .inr rfl
        · split at h
          · rw [Prod.mk.injEq] at h
            injection h.2 with he
            exact .inl ⟨_, he.symm⟩
          · split at h
            · rename_i fs1 e' hdl
              rw [Prod.mk.injEq] at h
              injection h.2 with he
              rw [← he, download_file_err fs _ s fs1 e' hdl]
              exact .inl ⟨_, rfl⟩
            · simp at h

/-- A path accepted by the file-location step of the worker exists. -/
theorem resolveOutput_ok (fs : FS) (p out : FPath)
    (h : resolveOutput fs p = .ok out) : (fs out).isSome = true := by
  unfold resolveOutput at h
  dsimp only at h
  repeat' split at h
  all_goals simp_all

/-- A successful `_transcode_to_mp4` writes its target. -/
theorem transcode_ok_exists (fs : FS) (path : FPath) (ha : Bool)
    (run : FfmpegRun) (fs2 : FS) (out2 : FPath)
    (h : transcode_to_mp4 fs path ha run = (fs2, .ok out2)) :
    (fs2 out2).isSome = true := by
  by_cases hr : run.ok = true
  · obtain ⟨t, f2, heq, _, hwrite, _⟩ := transcode_to_mp4_ok fs path ha run hr
    rw [heq, Prod.mk.injEq] at h
    obtain ⟨h1, h2⟩ := h
    injection h2 with h3
    rw [← h1, ← h3, hwrite]
    rfl
  · rw [Bool.not_eq_true] at hr
    unfold transcode_to_mp4 at h
    dsimp only at h
    rw [hr] at h
    simp at h

/-- A successful `_ensure_playable_mp4` returns an existing path. -/
theorem ensure_ok_exists (fs : FS) (path : FPath) (probe : ProbeOutcome)
    (run : FfmpegRun) (fs2 : FS) (out2 : FPath)
    (h : ensure_playable_mp4 fs path probe run = (fs2, .ok out2)) :
    (fs2 out2).isSome = true := by
  cases probe with
  | err => exact transcode_ok_exists _ _ _ _ _ _ h
  | ok streams => exact transcode_ok_exists _ _ _ _ _ _ h

/-- The compliance step keeps the returned path existing. -/
theorem workerVideoStep_ok_exists (fs : FS) (output : FPath)
    (vc : Option String) (probe : ProbeOutcome) (run : FfmpegRun) (fs2 : FS)
    (out2 : FPath) (hex : (fs output).isSome = true)
    (h : workerVideoStep fs output vc probe run = (fs2, .ok out2)) :
    (fs2 out2).isSome = true := by
  unfold workerVideoStep at h
  split at h
  · split at h
    · rw [Prod.mk.injEq] at h
      obtain ⟨h1, h2⟩ := h
      injection h2 with h3
      rw [← h1, ← h3]
      exact hex
    · exact ensure_ok_exists _ _ _ _ _ _ h
  · rw [Prod.mk.injEq] at h
    obtain ⟨h1, h2⟩ := h
    injection h2 with h3
    rw [← h1, ← h3]
    exact hex

/-- A successful `_worker` run returns a path existing in the returned
filesystem. -/
theorem ytdlpWorker_ok_exists (fs : FS) (env : YtEnv) (n : Nat) (fsOut : FS)
    (r : DownloadResult) (h : ytdlpWorker fs env n = (fsOut, .ok r)) :
    (fsOut r.file_path).isSome = true := by
  unfold ytdlpWorker at h
  dsimp only at h
  split at h
  · simp at h
  · split at h
    · simp at h
    · split at h
      · simp at h
      · rename_i media output hres
        split at h
        · split at h
          · simp at h
          · rename_i fs2 out2 hstep
            rw [Prod.mk.injEq] at h
            obtain ⟨h1, h2⟩ := h
            injection h2 with h3
            rw [← h1, ← h3]
            exact workerVideoStep_ok_exists _ _ _ _ _ _ _
              (resolveOutput_ok _ _ _ hres) hstep
        · rw [Prod.mk.injEq] at h
          obtain ⟨h1, h2⟩ := h
          injection h2 with h3
          rw [← h1, ← h3]
          exact resolveOutput_ok _ _ _ hres

/-- The outer boundary maps success to the same success. -/
theorem ytdlpBoundary_ok (x : Except PyExc DownloadResult) (r : DownloadResult)
    (h : ytdlpBoundary x = .ok r) : x = .ok r := by
  unfold ytdlpBoundary at h
  split at h <;> simp_all

/-- The outer boundary wraps every failure into the engine's
`DownloadError`. -/
theorem ytdlpBoundary_err (x : Except PyExc DownloadResult) (e : PyExc)
    (h : ytdlpBoundary x = .error e) : ∃ m, e = .downloadError m := by
  unfold ytdlpBoundary at h
  split at h
  · simp at h
  · injection h with h2
    exact ⟨_, h2.symm⟩
  · injection h with h2
    exact ⟨_, h2.symm⟩

/-- A successful `_download_with_ytdlp` refers to a file existing in the
returned filesystem. -/
theorem ytdlp_ok_exists (fs : FS) (env : YtEnv) (n : Nat) (fsOut : FS)
    (r : DownloadResult) (h : download_with_ytdlp fs env n = (fsOut, .ok r)) :
    (fsOut r.file_path).isSome = true := by
  unfold download_with_ytdlp at h
  dsimp only at h
  rw [Prod.mk.injEq] at h
  obtain ⟨h1, h2⟩ := h
  have h3 := ytdlpBoundary_ok _ _ h2
  exact ytdlpWorker_ok_exists fs env n fsOut r (by rw [← h1, ← h3])

/-- Every `_download_with_ytdlp` failure is the engine's
`DownloadError`. -/
theorem ytdlp_err_kind (fs : FS) (env : YtEnv) (n : Nat) (e : PyExc)
    (h : (download_with_ytdlp fs env n).2 = .error e) :
    ∃ m, e = .downloadError m := by
  unfold download_with_ytdlp at h
  dsimp only at h
  exact ytdlpBoundary_err _ e h

/-- Every `_download_tiktok_media` failure is the engine's
`DownloadError`. -/
theorem tiktok_err_kind (fs : FS) (env : SsstikEnv) (e : PyExc)
    (h : (download_tiktok_media fs env).2 = .error e) :
    ∃ m, e = .downloadError m := by
  unfold download_tiktok_media at h
  rcases ssstik_outcome fs env with ⟨m, hm⟩ | ⟨r, hok, _⟩
  · rw [h] at hm
    injection hm with h2
    exact ⟨m, h2⟩
  · rw [h] at hok
    simp at hok

/-- Case analysis of `download_video` along the host dispatch. -/
theorem download_video_cases (fs : FS) (u : Url) (env : Env) :
    (classifyUrl u = .instagram ∧
      download_video fs u env =
        (match download_instagram_media fs u env.ig with
         | (fs1, .error (.downloadError _)) =>
           ((download_with_ytdlp fs1 env.yt env.download_retries).1,
            (download_with_ytdlp fs1 env.yt env.download_retries).2,
            [.instagramStrat, .genericStrat])
         | (fs1, .error e) => (fs1, .error e, [.instagramStrat])
         | (fs1, .ok r) => (fs1, .ok r, [.instagramStrat]))) ∨
    (classifyUrl u = .tiktok ∧
      download_video fs u env =
        ((download_tiktok_media fs env.tiktok).1,
         (download_tiktok_media fs env.tiktok).2, [.tiktokStrat])) ∨
    (classifyUrl u ≠ .instagram ∧ classifyUrl u ≠ .tiktok ∧
      download_video fs u env =
        ((download_with_ytdlp fs env.yt env.download_retries).1,
         (download_with_ytdlp fs env.yt env.download_retries).2,
         [.genericStrat])) := by
  by_cases h1 : is_instagram_url u = true
  · refine .inl ⟨by simp [classifyUrl, h1], ?_⟩
    unfold download_video
    rw [if_pos h1]
  · by_cases h2 : is_tiktok_url u = true
    · refine .inr (.inl ⟨by simp [classifyUrl, h1, h2], ?_⟩)
      unfold download_video
      rw [if_neg h1, if_pos h2]
    · refine .inr (.inr ⟨?_, ?_, ?_⟩)
      · intro hc
        unfold classifyUrl at hc
        rw [if_neg h1, if_neg h2] at hc
        repeat' split at hc
        all_goals simp_all
      · intro hc
        unfold classifyUrl at hc
        rw [if_neg h1, if_neg h2] at hc
        repeat' split at hc
        all_goals simp_all
      · unfold download_video
        rw [if_neg h1, if_neg h2]
        split
        · rfl
        · split
          · rfl
          · split <;> rfl

/-- Every `_fetch_instagram_payload` failure is the engine's
`DownloadError`. -/
theorem fetch_error_kinds (h : IgHttp) (e : PyExc)
    (he : fetch_instagram_payload h = .error e) :
    ∃ m, e = .downloadError m := by
  unfold fetch_instagram_payload fetch_instagram_payload_from_html at he
  repeat' split at he
  all_goals
    first
      | (injection he with h2; exact ⟨_, h2.symm⟩)
      | injection he

/-- Every `_download_instagram_media` failure is either the engine's
`DownloadError` or the raw `IndexError`. -/
theorem ig_media_error_kinds (fs : FS) (u : Url) (env : IgEnv) (fsOut : FS)
    (e : PyExc) (h : download_instagram_media fs u env = (fsOut, .error e)) :
    (∃ m, e = .downloadError m) ∨ e = .indexError := by
  unfold download_instagram_media at h
  split at h
  · rw [Prod.mk.injEq] at h
    injection h.2 with he
    exact .inl ⟨_, he.symm⟩
  · split at h
    · rename_i e' hf
      rw [Prod.mk.injEq] at h
      injection h.2 with he
      rw [← he]
      exact .inl (fetch_error_kinds env.http e' hf)
    · exact igResolve_error_kinds _ _ _ _ _ _ _ h

/-- A successful `_download_instagram_media` refers to a file existing in
the returned filesystem. -/
theorem ig_media_ok_exists (fs : FS) (u : Url) (env : IgEnv) (fsOut : FS)
    (r : DownloadResult)
    (h : download_instagram_media fs u env = (fsOut, .ok r)) :
    (fsOut r.file_path).isSome = true := by
  unfold download_instagram_media at h
  split at h
  · simp at h
  · split at h
    · simp at h
    · exact igResolve_ok_exists _ _ _ _ _ _ _ h

theorem retryLoop_spec_witness :
    retryLoop retryDemo 3 = (.ok 7, [2, 4]) := by
  have h := (retryLoop_spec retryDemo retryDemo 3 (fun _ => "temporary failure")
      7).2.2.1
    (fun n h1 h2 => by
      have hmx : max 1 3 = 3 := rfl
      rw [hmx] at h2
      simp [retryDemo, h2])
    (by decide)
  exact h.trans (by decide)

/-- Projection form of `ytdlp_ok_exists`. -/
theorem ytdlp_ok_proj (fs : FS) (env : YtEnv) (n : Nat) (r : DownloadResult)
    (h : (download_with_ytdlp fs env n).2 = .ok r) :
    ((download_with_ytdlp fs env n).1 r.file_path).isSome = true :=
  ytdlp_ok_exists fs env n _ r (by rw [← h])

/-- C2 amended: whenever `download_video` returns a result, its
`file_path` exists — with every delivered byte written — in the returned
filesystem; on the TikTok path the file moreover holds at least 120 KiB.
The Instagram and generic paths do not check non-emptiness, so a
zero-byte file can be returned there (see the counterexample). -/
theorem download_video_file_exists (fs : FS) (u : Url) (env : Env)
    (r : DownloadResult) (h : (download_video fs u env).2.1 = .ok r) :
    ((download_video fs u env).1 r.file_path).isSome = true ∧
    (classifyUrl u = .tiktok →
      ∃ fd, (download_video fs u env).1 r.file_path = some fd ∧
        120 * 1024 ≤ fd.bytes.length) := by
  rcases download_video_cases fs u env with ⟨hcl, heq⟩ | ⟨hcl, heq⟩ |
    ⟨hcl1, hcl2, heq⟩
  · rw [heq] at h ⊢
    rcases hres : download_instagram_media fs u env.ig with ⟨fs1, res⟩
    rw [hres] at h
    cases res with
    | ok r0 =>
      have h' : (Except.ok r0 : Except PyExc DownloadResult) = .ok r := h
      injection h' with h2
      refine ⟨?_, fun hq => absurd (hcl.symm.trans hq) (by decide)⟩
      have hex := ig_media_ok_exists fs u env.ig fs1 r0 hres
      rw [← h2]
      exact hex
    | error eA =>
      cases eA with
      | downloadError m =>
        have h' : (download_with_ytdlp fs1 env.yt env.download_retries).2 =
            .ok r := h
        exact ⟨ytdlp_ok_proj fs1 env.yt env.download_retries r h',
               fun hq => absurd (hcl.symm.trans hq) (by decide)⟩
      | requestException => simp at h
      | ytdlpError m => simp at h
      | valueError => simp at h
      | indexError => simp at h
      | fileNotFoundError => simp at h
      | ffmpegError => simp at h
  · rw [heq] at h ⊢
    have hdt : (download_tiktok_via_ssstik fs env.tiktok).2 = .ok r := h
    rcases ssstik_outcome fs env.tiktok with ⟨m, hm⟩ |
      ⟨r', hok, fd, hfd, hge, _⟩
    · rw [hdt] at hm
      simp at hm
    · rw [hdt] at hok
      injection hok with h2
      rw [← h2] at hfd
      have hfdm : (download_tiktok_media fs env.tiktok).1 r.file_path =
          some fd := hfd
      constructor
      · show ((download_tiktok_media fs env.tiktok).1 r.file_path).isSome = true
        rw [hfdm]
        rfl
      · intro hq
        exact ⟨fd, hfdm, hge⟩
  · rw [heq] at h ⊢
    have h' : (download_with_ytdlp fs env.yt env.download_retries).2 =
        .ok r := h
    exact ⟨ytdlp_ok_proj fs env.yt env.download_retries r h',
           fun hq => absurd hq hcl2⟩

/-- C5 amended: the Instagram strategy falls back to the Generic (yt-dlp)
strategy exactly when it failed with the engine's `DownloadError`; an
Instagram failure with any other exception propagates with no fallback;
TikTok URLs run the TikTok strategy alone, and Snapchat, Likee, YouTube
and unmatched URLs run the generic strategy alone; no call ever runs more
than two strategies (at most one fallback hop). -/
theorem download_video_fallback_spec (fs : FS) (u : Url) (env : Env) :
    (download_video fs u env).2.2.length ≤ 2 ∧
    (classifyUrl u = .instagram →
      (download_video fs u env).2.2 =
        match (download_instagram_media fs u env.ig).2 with
        | .error (.downloadError _) => [.instagramStrat, .genericStrat]
        | _ => [.instagramStrat]) ∧
    (classifyUrl u = .tiktok →
      (download_video fs u env).2.2 = [.tiktokStrat]) ∧
    (classifyUrl u ≠ .instagram → classifyUrl u ≠ .tiktok →
      (download_video fs u env).2.2 = [.genericStrat]) := by
  rcases download_video_cases fs u env with ⟨hcl, heq⟩ | ⟨hcl, heq⟩ |
    ⟨hcl1, hcl2, heq⟩
  · refine ⟨?_, fun _ => ?_,
      fun hq => absurd (hcl.symm.trans hq) (by decide),
      fun hq _ => absurd hcl hq⟩
    · rw [heq]
      rcases hres : download_instagram_media fs u env.ig with ⟨fs1, res⟩
      cases res with
      | ok r0 => simp
      | error eA => cases eA <;> simp
    · rw [heq]
      rcases hres : download_instagram_media fs u env.ig with ⟨fs1, res⟩
      cases res with
      | ok r0 => simp
      | error eA => cases eA <;> simp
  · refine ⟨?_, fun hq => absurd (hcl.symm.trans hq) (by decide),
      fun _ => ?_, fun _ hq => absurd hcl hq⟩
    · rw [heq]
      simp
    · rw [heq]
  · refine ⟨?_, fun hq => absurd hq hcl1, fun hq => absurd hq hcl2,
      fun _ _ => ?_⟩
    · rw [heq]
      simp
    · rw [heq]

/-- C8 amended: every failure surfaced by `download_video` is the
engine's tagged `DownloadError` — network, parsing and transcoding
library exceptions are wrapped at the strategy boundaries — except that
the Instagram payload handling can raise a raw `IndexError` (a node
carrying an explicitly empty `display_resources` list), which crosses the
engine boundary unwrapped. -/
theorem download_video_error_kinds (fs : FS) (u : Url) (env : Env)
    (e : PyExc) (h : (download_video fs u env).2.1 = .error e) :
    (∃ m, e = .downloadError m) ∨ e = .indexError := by
  rcases download_video_cases fs u env with ⟨hcl, heq⟩ | ⟨hcl, heq⟩ |
    ⟨hcl1, hcl2, heq⟩
  · rw [heq] at h
    rcases hres : download_instagram_media fs u env.ig with ⟨fs1, res⟩
    rw [hres] at h
    cases res with
    | ok r0 => simp at h
    | error eA =>
      have hkinds := ig_media_error_kinds fs u env.ig fs1 eA hres
      cases eA with
      | downloadError m =>
        exact .inl (ytdlp_err_kind fs1 env.yt env.download_retries e h)
      | requestException =>
        have h' : (Except.error PyExc.requestException :
            Except PyExc DownloadResult) = .error e := h
        injection h' with h2
        rw [← h2]
        exact hkinds
      | ytdlpError m =>
        have h' : (Except.error (PyExc.ytdlpError m) :
            Except PyExc DownloadResult) = .error e := h
        injection h' with h2
        rw [← h2]
        exact hkinds
      | valueError =>
        have h' : (Except.error PyExc.valueError :
            Except PyExc DownloadResult) = .error e := h
        injection h' with h2
        rw [← h2]
        exact hkinds
      | indexError =>
        have h' : (Except.error PyExc.indexError :
            Except PyExc DownloadResult) = .error e := h
        injection h' with h2
        rw [← h2]
        exact hkinds
      | fileNotFoundError =>
        have h' : (Except.error PyExc.fileNotFoundError :
            Except PyExc DownloadResult) = .error e := h
        injection h' with h2
        rw [← h2]
        exact hkinds
      | ffmpegError =>
        have h' : (Except.error PyExc.ffmpegError :
            Except PyExc DownloadResult) = .error e := h
        injection h' with h2
        rw [← h2]
        exact hkinds
  · rw [heq] at h
    exact .inl (tiktok_err_kind fs env.tiktok e h)
  · rw [heq] at h
    exact .inl (ytdlp_err_kind fs env.yt env.download_retries e h)

/-- C2 counterexample: an Instagram video whose byte stream completes
with zero bytes yields a successful `DownloadResult` whose file exists
but is empty — the claimed non-emptiness fails. -/
theorem download_video_nonempty_counterexample :
    (download_video fsEmpty c2Url c2Env).2.1 = .ok c2Result ∧
    (download_video fsEmpty c2Url c2Env).1 ⟨"SHORT", ".mp4"⟩ =
      some ⟨[], none⟩ := by
  decide

theorem download_video_file_exists_witness :
    ((download_video fsEmpty c2Url c2Env).1 c2Result.file_path).isSome =
      true ∧
    (classifyUrl c2Url = .tiktok →
      ∃ fd, (download_video fsEmpty c2Url c2Env).1 c2Result.file_path =
        some fd ∧ 120 * 1024 ≤ fd.bytes.length) :=
  download_video_file_exists fsEmpty c2Url c2Env c2Result (by decide)

/-- C5 counterexample: an Instagram URL whose strategy fails — here with
the raw `IndexError` of an empty `display_resources` list — does **not**
fall back to the Generic strategy: only the Instagram strategy ran, so
"for every Instagram URL whose Instagram strategy fails, the Generic
strategy is invoked" is false as stated. -/
theorem download_video_fallback_counterexample :
    (download_video fsEmpty c5Url c5Env).2.1 = .error .indexError ∧
    (download_video fsEmpty c5Url c5Env).2.2 = [Strat.instagramStrat] := by
  decide

theorem download_video_fallback_spec_witness :
    (download_video fsEmpty c2Url c2Env).2.2 =
      match (download_instagram_media fsEmpty c2Url c2Env.ig).2 with
      | .error (.downloadError _) => [Strat.instagramStrat, Strat.genericStrat]
      | _ => [Strat.instagramStrat] :=
  (download_video_fallback_spec fsEmpty c2Url c2Env).2.1 (by decide)

/-- C8 counterexample: a structurally malformed Instagram payload (empty
`display_resources`) makes `download_video` surface the raw
`IndexError` — not the engine's tagged `DownloadError` — to its caller. -/
theorem download_video_raw_error_counterexample :
    (download_video fsEmpty c8Url c8Env).2.1 = .error .indexError := by
  decide

theorem download_video_error_kinds_witness :
    (∃ m, PyExc.indexError = .downloadError m) ∨
      PyExc.indexError = .indexError :=
  download_video_error_kinds fsEmpty c8Url c8Env .indexError (by decide)
